import Mathlib

/-!
# Verification of Tungsten's triangle-mesh primitive and thin-sheet BSDF

Shallow embedding of `src/core/primitives/Mesh.hpp` (class `TriangleMesh`)
and `src/core/bsdfs/ThinSheetBsdf.hpp` from the Tungsten renderer.
Machine floats are modelled as real numbers; the external Embree oracle,
the `Distribution1D` warp and `Sample::uniformTriangle` are modelled as
abstract inputs (their draw results are parameters of the embedded
functions), exactly as the mesh code consumes them.
-/

open Classical

namespace Tungsten

/-- 3-component vector (`Vec3f` in the source, with `float` modelled as `ℝ`). -/
@[ext]
structure Vec3 where
  x : ℝ
  y : ℝ
  z : ℝ

namespace Vec3

instance : Zero Vec3 := ⟨⟨0, 0, 0⟩⟩

instance : Add Vec3 := ⟨fun a b => ⟨a.x + b.x, a.y + b.y, a.z + b.z⟩⟩

instance : Sub Vec3 := ⟨fun a b => ⟨a.x - b.x, a.y - b.y, a.z - b.z⟩⟩

instance : Neg Vec3 := ⟨fun a => ⟨-a.x, -a.y, -a.z⟩⟩

instance : SMul ℝ Vec3 := ⟨fun c a => ⟨c * a.x, c * a.y, c * a.z⟩⟩

/-- `Vec3f::dot`. -/
def dot (a b : Vec3) : ℝ := a.x * b.x + a.y * b.y + a.z * b.z

/-- `Vec3f::cross`. -/
def cross (a b : Vec3) : Vec3 :=
  ⟨a.y * b.z - a.z * b.y, a.z * b.x - a.x * b.z, a.x * b.y - a.y * b.x⟩

/-- `Vec3f::lengthSq`. -/
def lengthSq (a : Vec3) : ℝ := dot a a

/-- `Vec3f::length` (the float `sqrt` modelled by `Real.sqrt`). -/
noncomputable def length (a : Vec3) : ℝ := Real.sqrt (lengthSq a)

/-- `Vec3f::normalized`: the vector divided by its length.  Division by a
zero length (degenerate input) yields the zero vector in this real-number
model. -/
noncomputable def normalized (a : Vec3) : Vec3 := (length a)⁻¹ • a

end Vec3

/-- 2-component vector (`Vec2f` in the source). -/
@[ext]
structure Vec2 where
  x : ℝ
  y : ℝ

namespace Vec2

instance : Zero Vec2 := ⟨⟨0, 0⟩⟩

instance : Add Vec2 := ⟨fun a b => ⟨a.x + b.x, a.y + b.y⟩⟩

instance : Sub Vec2 := ⟨fun a b => ⟨a.x - b.x, a.y - b.y⟩⟩

instance : SMul ℝ Vec2 := ⟨fun c a => ⟨c * a.x, c * a.y⟩⟩

end Vec2

/-- `struct Vertex`: position, shading normal, texture coordinate. -/
structure Vertex where
  pos : Vec3
  normal : Vec3
  uv : Vec2

/-- The default-constructed vertex used when an out-of-range index is read;
the data-model invariant (triangle indices < vertex count) makes it
unreachable in well-formed meshes. -/
def defaultVertex : Vertex := ⟨0, 0, ⟨0, 0⟩⟩

/-- `struct TriangleI`: three vertex indices. -/
structure TriangleI where
  v0 : ℕ
  v1 : ℕ
  v2 : ℕ

/-- `_verts[i]` / `_tfVerts[i]` array read. -/
def getVert (vs : List Vertex) (i : ℕ) : Vertex := vs.getD i defaultVertex

/-- `_tris[i]` array read. -/
def getTri (ts : List TriangleI) (i : ℕ) : TriangleI := ts.getD i ⟨0, 0, 0⟩

/-- The render-time state of `class TriangleMesh` that the verified queries
touch: source vertices, the transformed-vertex cache `_tfVerts`, triangles,
the optional `_triSampler` (modelled by the weight list handed to
`Distribution1D`, `none` while the unique_ptr is null), the cached
`_totalArea`, and the `_smoothed` flag. -/
structure Mesh where
  verts : List Vertex
  tfVerts : List Vertex
  tris : List TriangleI
  triSampler : Option (List ℝ)
  totalArea : ℝ
  smoothed : Bool

/-- Modelled from the spec: `MathUtil::triangleArea` (its source file is not
part of this repository snapshot) — the standard cross-product formula, half
the magnitude of the cross product of two edges. -/
noncomputable def triangleArea (p0 p1 p2 : Vec3) : ℝ :=
  Vec3.length (Vec3.cross (p1 - p0) (p2 - p0)) / 2

/-- World-space area of triangle `t` read from the transformed-vertex list. -/
noncomputable def triAreaOf (tfVerts : List Vertex) (t : TriangleI) : ℝ :=
  triangleArea (getVert tfVerts t.v0).pos (getVert tfVerts t.v1).pos
    (getVert tfVerts t.v2).pos

/-- `TriangleMesh::prepareForRender`, restricted to the state this model
tracks: rebuilds the transformed-vertex cache (`pointTf` is the affine
transform on positions, `normalTf` the inverse-transpose on normals, exactly
as the loop applies them) and recomputes `_totalArea` as the loop
`_totalArea += MathUtil::triangleArea(p0, p1, p2)` does.  The Embree
geometry build is external and not modelled. -/
noncomputable def prepareForRender (pointTf normalTf : Vec3 → Vec3) (m : Mesh) : Mesh :=
  let tf := m.verts.map fun v => Vertex.mk (pointTf v.pos) (normalTf v.normal) v.uv
  { m with
    tfVerts := tf
    totalArea := (m.tris.map (triAreaOf tf)).sum }

/-- `TriangleMesh::makeSamplable`: recomputes the per-triangle area list
`areas`, accumulates `_totalArea`, and hands the list to `Distribution1D`. -/
noncomputable def makeSamplable (m : Mesh) : Mesh :=
  let areas := m.tris.map (triAreaOf m.tfVerts)
  { m with
    triSampler := some areas
    totalArea := areas.sum }

/-- `TriangleMesh::isSamplable`: whether `_triSampler` is non-null. -/
def isSamplable (m : Mesh) : Bool := m.triSampler.isSome

/-- `TriangleMesh::area`: returns the cached `_totalArea` field, with no
precondition check of any kind. -/
def area (m : Mesh) : ℝ := m.totalArea

/-- A ray as the mesh sees it: origin, direction and the valid distance
interval `[nearT, farT]`; `setFarT` mutation is modelled by returning an
updated ray. -/
structure Ray where
  org : Vec3
  dir : Vec3
  nearT : ℝ
  farT : ℝ

/-- The data the Embree oracle reports for a hit (`eRay` after
`_intersector->intersect`): hit distance `tfar`, raw geometric normal `Ng`,
barycentric coordinates, triangle id and secondary id.  The oracle itself is
external; an `Option OracleHit` models its outcome (`none` = no hit,
i.e. `eRay` converts to false). -/
structure OracleHit where
  tfar : ℝ
  Ng : Vec3
  u : ℝ
  v : ℝ
  id0 : ℕ
  id1 : ℕ

/-- `struct MeshIntersection`: the differential-geometry record `intersect`
fills (`backSide` kept as the proposition the C++ bool decides). -/
structure MeshIntersection where
  Ng : Vec3
  p : Vec3
  u : ℝ
  v : ℝ
  id0 : ℕ
  id1 : ℕ
  backSide : Prop

/-- `TriangleMesh::intersect`, with the Embree query's outcome passed in as
`oracle`.  Returns the C++ return value, the ray (far bound possibly
shrunk) and the record (possibly overwritten; `rec0` is its previous
contents, returned untouched on a miss). -/
noncomputable def intersect (ray : Ray) (oracle : Option OracleHit)
    (rec0 : MeshIntersection) : Bool × Ray × MeshIntersection :=
  match oracle with
  | none => (false, ray, rec0)
  | some h =>
    if h.tfar < ray.farT then
      (true, { ray with farT := h.tfar },
        { Ng := h.Ng
          p := ray.org + h.tfar • ray.dir
          u := h.u
          v := h.v
          id0 := h.id0
          id1 := h.id1
          backSide := Vec3.dot h.Ng ray.dir > 0 })
    else (false, ray, rec0)

/-- `TriangleMesh::normalAt`: barycentric interpolation of the three
transformed per-vertex normals, renormalized. -/
noncomputable def normalAt (m : Mesh) (triangle : ℕ) (u v : ℝ) : Vec3 :=
  let t := getTri m.tris triangle
  let n0 := (getVert m.tfVerts t.v0).normal
  let n1 := (getVert m.tfVerts t.v1).normal
  let n2 := (getVert m.tfVerts t.v2).normal
  Vec3.normalized ((1 - u - v) • n0 + u • n1 + v • n2)

/-- `TriangleMesh::uvAt`: barycentric interpolation of the three per-vertex
texture coordinates. -/
def uvAt (m : Mesh) (triangle : ℕ) (u v : ℝ) : Vec2 :=
  let t := getTri m.tris triangle
  let uv0 := (getVert m.tfVerts t.v0).uv
  let uv1 := (getVert m.tfVerts t.v1).uv
  let uv2 := (getVert m.tfVerts t.v2).uv
  (1 - u - v) • uv0 + u • uv1 + v • uv2

/-- The fields of `IntersectionInfo` that `intersectionInfo` fills. -/
structure IntersectionInfo where
  Ng : Vec3
  Ns : Vec3
  uv : Vec2
  p : Vec3

/-- `TriangleMesh::intersectionInfo`: shading-info reconstruction from the
intersection record. -/
noncomputable def intersectionInfo (m : Mesh) (isect : MeshIntersection) :
    IntersectionInfo :=
  let gN := -Vec3.normalized isect.Ng
  { Ng := gN
    Ns := if m.smoothed then normalAt m isect.id0 isect.u isect.v else gN
    uv := uvAt m isect.id0 isect.u isect.v
    p := isect.p }

/-- `TriangleMesh::tangentSpace`: solves for the tangent frame from the
triangle's edge vectors and UV deltas; `none` models the `return false`
path (caller receives no `T`, `B`). -/
noncomputable def tangentSpace (m : Mesh) (isect : MeshIntersection) :
    Option (Vec3 × Vec3) :=
  let t := getTri m.tris isect.id0
  let p0 := (getVert m.tfVerts t.v0).pos
  let p1 := (getVert m.tfVerts t.v1).pos
  let p2 := (getVert m.tfVerts t.v2).pos
  let uv0 := (getVert m.tfVerts t.v0).uv
  let uv1 := (getVert m.tfVerts t.v1).uv
  let uv2 := (getVert m.tfVerts t.v2).uv
  let q1 := p1 - p0
  let q2 := p2 - p0
  let s1 := uv1.x - uv0.x
  let t1 := uv1.y - uv0.y
  let s2 := uv2.x - uv0.x
  let t2 := uv2.y - uv0.y
  let invDet := s1 * t2 - s2 * t1
  if |invDet| < 1 / 10000 then none
  else
    let det := 1 / invDet
    some (det • (t2 • q1 - t1 • q2), det • (s1 • q2 - s2 • q1))

/-- The winding-derived normal of triangle `idx`, exactly as
`sampleInboundDirection` computes it:
`(p1 - p0).cross(p2 - p0).normalized()`. -/
noncomputable def triNormal (m : Mesh) (idx : ℕ) : Vec3 :=
  let t := getTri m.tris idx
  Vec3.normalized
    (Vec3.cross ((getVert m.tfVerts t.v1).pos - (getVert m.tfVerts t.v0).pos)
      ((getVert m.tfVerts t.v2).pos - (getVert m.tfVerts t.v0).pos))

/-- The cosine `sampleInboundDirection` tests:
`cosTheta = -(normal.dot(sample.d))` with
`sample.d = L / sample.dist`, `L = p - sample.p`, for sampled point `q` and
reference point `refp`. -/
noncomputable def cosThetaAt (m : Mesh) (idx : ℕ) (q refp : Vec3) : ℝ :=
  -(Vec3.dot (triNormal m idx) ((Vec3.length (q - refp))⁻¹ • (q - refp)))

/-- The output fields of a `LightSample` that `sampleInboundDirection`
writes: direction, distance and pdf. -/
structure LightSampleOut where
  d : Vec3
  dist : ℝ
  pdf : ℝ

/-- `TriangleMesh::sampleInboundDirection`.  The two external random
consumers are passed in as their results: `idx` is the triangle index the
`Distribution1D` warp returns and `q` the point `Sample::uniformTriangle`
returns inside that triangle; `refp` is the reference point `sample.p`.
`none` models the `return false` path (no fields are consumed by the
caller then). -/
noncomputable def sampleInboundDirection (m : Mesh) (idx : ℕ) (q refp : Vec3) :
    Option LightSampleOut :=
  let t := getTri m.tris idx
  let p0 := (getVert m.tfVerts t.v0).pos
  let p1 := (getVert m.tfVerts t.v1).pos
  let p2 := (getVert m.tfVerts t.v2).pos
  let normal := Vec3.normalized (Vec3.cross (p1 - p0) (p2 - p0))
  let L := q - refp
  let rSq := Vec3.lengthSq L
  let dist := Real.sqrt rSq
  let d := dist⁻¹ • L
  let cosTheta := -(Vec3.dot normal d)
  if cosTheta ≤ 0 then none
  else some ⟨d, dist, rSq / (cosTheta * m.totalArea)⟩

/-- `TriangleMesh::inboundPdf`: the raw quotient
`(p - isect.p).lengthSq() / (-d.dot(isect.Ng.normalized()) * totalArea)`,
returned unconditionally — there is no rejection branch. -/
noncomputable def inboundPdf (m : Mesh) (isect : MeshIntersection)
    (p d : Vec3) : ℝ :=
  Vec3.lengthSq (p - isect.p) /
    (-(Vec3.dot d (Vec3.normalized isect.Ng)) * m.totalArea)

/-- The argument record of the thin-sheet BSDF queries
(`SurfaceScatterEvent`): only the directions matter for the verified
claims. -/
structure SurfaceScatterEvent where
  wi : Vec3
  wo : Vec3

/-- Modelled from the spec: `ThinSheetBsdf::eval` (its .cpp body is not in
this repository snapshot; `ThinSheetBsdf.hpp` only declares it).  The spec:
"both return the zero value for every externally supplied direction". -/
def ThinSheetBsdf.eval (_event : SurfaceScatterEvent) : Vec3 := 0

/-- Modelled from the spec: `ThinSheetBsdf::pdf` (its .cpp body is not in
this repository snapshot).  The spec: "both return the zero value for every
externally supplied direction". -/
def ThinSheetBsdf.pdf (_event : SurfaceScatterEvent) : ℝ := 0

/-- A sequence of `intersect` calls on one ray (the per-thread reuse pattern
of the renderer): each call threads the possibly-shrunk ray and the
possibly-overwritten record into the next. -/
noncomputable def runIntersections (ray : Ray) (rec : MeshIntersection) :
    List (Option OracleHit) → Ray × MeshIntersection
  | [] => (ray, rec)
  | o :: os =>
    let r := intersect ray o rec
    runIntersections r.2.1 r.2.2 os

/-- First vertex record of triangle `tri` in the transformed cache. -/
def triVert0 (m : Mesh) (tri : ℕ) : Vertex :=
  getVert m.tfVerts (getTri m.tris tri).v0

/-- Second vertex record of triangle `tri` in the transformed cache. -/
def triVert1 (m : Mesh) (tri : ℕ) : Vertex :=
  getVert m.tfVerts (getTri m.tris tri).v1

/-- Third vertex record of triangle `tri` in the transformed cache. -/
def triVert2 (m : Mesh) (tri : ℕ) : Vertex :=
  getVert m.tfVerts (getTri m.tris tri).v2

/-- Edge vector `q1 = p1 - p0` of `tangentSpace`. -/
def edgeQ1 (m : Mesh) (tri : ℕ) : Vec3 :=
  (triVert1 m tri).pos - (triVert0 m tri).pos

/-- Edge vector `q2 = p2 - p0` of `tangentSpace`. -/
def edgeQ2 (m : Mesh) (tri : ℕ) : Vec3 :=
  (triVert2 m tri).pos - (triVert0 m tri).pos

/-- UV delta `(s1, t1) = uv1 - uv0` of `tangentSpace`. -/
def uvD1 (m : Mesh) (tri : ℕ) : Vec2 :=
  (triVert1 m tri).uv - (triVert0 m tri).uv

/-- UV delta `(s2, t2) = uv2 - uv0` of `tangentSpace`. -/
def uvD2 (m : Mesh) (tri : ℕ) : Vec2 :=
  (triVert2 m tri).uv - (triVert0 m tri).uv

/-- The UV-delta determinant `invDet = s1*t2 - s2*t1` of `tangentSpace`. -/
def uvDeltaDet (m : Mesh) (tri : ℕ) : ℝ :=
  (uvD1 m tri).x * (uvD2 m tri).y - (uvD2 m tri).x * (uvD1 m tri).y

/-- Concrete fixture: the unit right triangle `(0,0,0),(1,0,0),(0,1,0)` with
upward normals and the identity UV chart. -/
def triVertsFixture : List Vertex :=
  [⟨⟨0, 0, 0⟩, ⟨0, 0, 1⟩, ⟨0, 0⟩⟩,
   ⟨⟨1, 0, 0⟩, ⟨0, 0, 1⟩, ⟨1, 0⟩⟩,
   ⟨⟨0, 1, 0⟩, ⟨0, 0, 1⟩, ⟨0, 1⟩⟩]

/-- Concrete fixture: a prepared, samplable one-triangle mesh over
`triVertsFixture` (total area `1/2`). -/
noncomputable def oneTriMesh : Mesh :=
  { verts := triVertsFixture
    tfVerts := triVertsFixture
    tris := [⟨0, 1, 2⟩]
    triSampler := some [1 / 2]
    totalArea := 1 / 2
    smoothed := false }

/-- Concrete fixture: a mesh that has never been prepared or made samplable —
triangles are present but the transformed-vertex cache is empty, the sampler
pointer is null, and the cached `_totalArea` field holds a stale value. -/
def unpreparedMesh : Mesh :=
  { verts := triVertsFixture
    tfVerts := []
    tris := [⟨0, 1, 2⟩]
    triSampler := none
    totalArea := 42
    smoothed := false }

/-- Concrete fixture: a downward ray starting above `oneTriMesh`. -/
def rayFixture : Ray :=
  { org := ⟨0, 0, 2⟩, dir := ⟨0, 0, -1⟩, nearT := 0, farT := 10 }

/-- Concrete fixture: the oracle hit of `rayFixture` against the fixture
triangle, at distance 2. -/
def hitFixture : OracleHit :=
  { tfar := 2, Ng := ⟨0, 0, 1⟩, u := 0, v := 0, id0 := 0, id1 := 0 }

/-- Concrete fixture: an arbitrary pre-existing record contents. -/
def recFixture : MeshIntersection :=
  { Ng := ⟨1, 0, 0⟩, p := ⟨5, 5, 5⟩, u := 0, v := 0, id0 := 7, id1 := 0,
    backSide := False }

/-- Concrete fixture: a realized hit record on the fixture triangle with the
oracle normal `(0,0,2)` — twice the winding cross product `(0,0,1)`. -/
def isectFixture : MeshIntersection :=
  { Ng := ⟨0, 0, 2⟩, p := ⟨0, 0, 0⟩, u := 0, v := 0, id0 := 0, id1 := 0,
    backSide := False }

/-- Concrete fixture: a record whose stored normal faces away from the
query direction, exercising the unchecked quotient of `inboundPdf`. -/
def backIsectFixture : MeshIntersection :=
  { Ng := ⟨0, 0, 1⟩, p := ⟨0, 0, 0⟩, u := 0, v := 0, id0 := 0, id1 := 0,
    backSide := False }

/-! ## Component and algebra lemmas -/

namespace Vec3

@[simp] theorem zero_x : (0 : Vec3).x = 0 := rfl

@[simp] theorem zero_y : (0 : Vec3).y = 0 := rfl

@[simp] theorem zero_z : (0 : Vec3).z = 0 := rfl

@[simp] theorem add_x (a b : Vec3) : (a + b).x = a.x + b.x := rfl

@[simp] theorem add_y (a b : Vec3) : (a + b).y = a.y + b.y := rfl

@[simp] theorem add_z (a b : Vec3) : (a + b).z = a.z + b.z := rfl

@[simp] theorem sub_x (a b : Vec3) : (a - b).x = a.x - b.x := rfl

@[simp] theorem sub_y (a b : Vec3) : (a - b).y = a.y - b.y := rfl

@[simp] theorem sub_z (a b : Vec3) : (a - b).z = a.z - b.z := rfl

@[simp] theorem neg_x (a : Vec3) : (-a).x = -a.x := rfl

@[simp] theorem neg_y (a : Vec3) : (-a).y = -a.y := rfl

@[simp] theorem neg_z (a : Vec3) : (-a).z = -a.z := rfl

@[simp] theorem smul_x (c : ℝ) (a : Vec3) : (c • a).x = c * a.x := rfl

@[simp] theorem smul_y (c : ℝ) (a : Vec3) : (c • a).y = c * a.y := rfl

@[simp] theorem smul_z (c : ℝ) (a : Vec3) : (c • a).z = c * a.z := rfl

theorem dot_comm (a b : Vec3) : dot a b = dot b a := by
  unfold dot; ring

theorem lengthSq_nonneg (a : Vec3) : 0 ≤ lengthSq a := by
  unfold lengthSq dot
  nlinarith [sq_nonneg a.x, sq_nonneg a.y, sq_nonneg a.z]

theorem length_nonneg (a : Vec3) : 0 ≤ length a := Real.sqrt_nonneg _

theorem lengthSq_sub_comm (a b : Vec3) : lengthSq (a - b) = lengthSq (b - a) := by
  unfold lengthSq dot; simp; ring

theorem lengthSq_smul (c : ℝ) (a : Vec3) :
    lengthSq (c • a) = c ^ 2 * lengthSq a := by
  unfold lengthSq dot; simp; ring

theorem length_smul_of_pos {c : ℝ} (hc : 0 < c) (a : Vec3) :
    length (c • a) = c * length a := by
  unfold length
  rw [lengthSq_smul, Real.sqrt_mul (sq_nonneg c), Real.sqrt_sq hc.le]

theorem normalized_smul_of_pos {c : ℝ} (hc : 0 < c) (a : Vec3) :
    normalized (c • a) = normalized a := by
  unfold normalized
  rw [length_smul_of_pos hc]
  ext <;> simp [mul_inv] <;>
    rw [mul_assoc, inv_mul_cancel_left₀ hc.ne']

theorem normalized_of_length_one {a : Vec3} (h : length a = 1) :
    normalized a = a := by
  unfold normalized
  rw [h]
  ext <;> simp

theorem bary_corner0 (a b c : Vec3) :
    ((1 : ℝ) - 0 - 0) • a + (0 : ℝ) • b + (0 : ℝ) • c = a := by
  ext <;> simp

theorem bary_corner1 (a b c : Vec3) :
    ((1 : ℝ) - 1 - 0) • a + (1 : ℝ) • b + (0 : ℝ) • c = b := by
  ext <;> simp

theorem bary_corner2 (a b c : Vec3) :
    ((1 : ℝ) - 0 - 1) • a + (0 : ℝ) • b + (1 : ℝ) • c = c := by
  ext <;> simp

end Vec3

namespace Vec2

@[simp] theorem v2add_x (a b : Vec2) : (a + b).x = a.x + b.x := rfl

@[simp] theorem v2add_y (a b : Vec2) : (a + b).y = a.y + b.y := rfl

@[simp] theorem v2sub_x (a b : Vec2) : (a - b).x = a.x - b.x := rfl

@[simp] theorem v2sub_y (a b : Vec2) : (a - b).y = a.y - b.y := rfl

@[simp] theorem v2smul_x (c : ℝ) (a : Vec2) : (c • a).x = c * a.x := rfl

@[simp] theorem v2smul_y (c : ℝ) (a : Vec2) : (c • a).y = c * a.y := rfl

end Vec2

/-! ## Helper lemmas about the mesh operations -/

theorem intersect_farT_le (ray : Ray) (o : Option OracleHit)
    (rec : MeshIntersection) : (intersect ray o rec).2.1.farT ≤ ray.farT := by
  cases o with
  | none => simp [intersect]
  | some h =>
    by_cases hlt : h.tfar < ray.farT
    · simp [intersect, hlt, hlt.le]
    · simp [intersect, hlt]

theorem runIntersections_farT_le (os : List (Option OracleHit)) :
    ∀ ray rec, (runIntersections ray rec os).1.farT ≤ ray.farT := by
  induction os with
  | nil => intro ray rec; simp [runIntersections]
  | cons o os ih =>
    intro ray rec
    exact le_trans (ih _ _) (intersect_farT_le ray o rec)

/-! ## Claims -/

/-- C8: for every scatter event with an externally supplied direction, both
`ThinSheetBsdf::eval` and `ThinSheetBsdf::pdf` return zero (the zero
spectrum and zero probability density), the model being a delta BSDF whose
scattering mass sits on the single direction chosen by `sample`. -/
theorem thinSheet_eval_pdf_zero (event : SurfaceScatterEvent) :
    ThinSheetBsdf.eval event = 0 ∧ ThinSheetBsdf.pdf event = 0 :=
  ⟨rfl, rfl⟩

/-- C6: after `prepareForRender`, and again after every `makeSamplable`, the
cached total area equals the sum over all triangles of the world-space
cross-product triangle areas of the transformed vertices, and after
`makeSamplable` the per-triangle weights handed to the area distribution sum
to that same cached total area. -/
theorem totalArea_eq_sum_tri_areas (pointTf normalTf : Vec3 → Vec3) (m : Mesh) :
    ((prepareForRender pointTf normalTf m).totalArea =
      ((prepareForRender pointTf normalTf m).tris.map
        (triAreaOf (prepareForRender pointTf normalTf m).tfVerts)).sum) ∧
    ((makeSamplable m).totalArea =
      ((makeSamplable m).tris.map
        (triAreaOf (makeSamplable m).tfVerts)).sum) ∧
    (∀ ws, (makeSamplable m).triSampler = some ws →
      ws.sum = (makeSamplable m).totalArea) := by
  refine ⟨rfl, rfl, ?_⟩
  intro ws hws
  simp only [makeSamplable, Option.some.injEq] at hws
  subst hws
  rfl

/-- Witness for C6 at the one-triangle fixture: the weight list handed to
the distribution is `[1/2]`, summing to the cached total area. -/
theorem totalArea_eq_sum_tri_areas_witness :
    List.sum [(1 : ℝ) / 2] = (makeSamplable oneTriMesh).totalArea := by
  apply (totalArea_eq_sum_tri_areas id id oneTriMesh).2.2
  show (makeSamplable oneTriMesh).triSampler = some [(1 : ℝ) / 2]
  simp only [makeSamplable, oneTriMesh, triVertsFixture, triAreaOf,
    triangleArea, getTri, getVert, List.map, List.getD, Option.some.injEq]
  norm_num [Vec3.cross, Vec3.length, Vec3.lengthSq, Vec3.dot]

/-- C10 (amended): `area` performs no precondition or lifecycle check at
all — it returns the cached `_totalArea` field for every mesh state,
prepared or not. -/
theorem area_no_precondition_check (m : Mesh) : area m = m.totalArea := rfl

/-- Counterexample to C10 as stated: on a mesh that was never prepared or
made samplable (null sampler, empty transformed-vertex cache), `area`
returns a perfectly ordinary value — the stale cached field `42` — instead
of failing with an abort/assert; the true world-space area sum over the
(empty) cache is `0`. -/
theorem area_unprepared_silent :
    isSamplable unpreparedMesh = false ∧
    unpreparedMesh.tfVerts = [] ∧
    area unpreparedMesh = 42 ∧
    (unpreparedMesh.tris.map (triAreaOf unpreparedMesh.tfVerts)).sum = 0 := by
  refine ⟨rfl, rfl, rfl, ?_⟩
  simp only [unpreparedMesh, triAreaOf, triangleArea, getVert, getTri,
    defaultVertex, List.map, List.getD]
  norm_num [Vec3.cross, Vec3.length, Vec3.lengthSq, Vec3.dot]

/-- C3: `intersect` returns true exactly when the oracle reports a hit
strictly closer than the ray's current far bound; then the ray's far bound
becomes the hit distance and the record holds the point
`origin + hitDistance • direction`, the oracle's normal, barycentrics, ids
and the back-face flag `dot(Ng, dir) > 0`; otherwise it returns false and
leaves the ray and the record unchanged. -/
theorem intersect_spec (ray : Ray) (oracle : Option OracleHit)
    (rec0 : MeshIntersection) :
    ((intersect ray oracle rec0).1 = true ↔
      ∃ h, oracle = some h ∧ h.tfar < ray.farT) ∧
    (∀ h, oracle = some h → h.tfar < ray.farT →
      (intersect ray oracle rec0).2.1 = { ray with farT := h.tfar } ∧
      (intersect ray oracle rec0).2.2 =
        { Ng := h.Ng
          p := ray.org + h.tfar • ray.dir
          u := h.u
          v := h.v
          id0 := h.id0
          id1 := h.id1
          backSide := Vec3.dot h.Ng ray.dir > 0 }) ∧
    ((intersect ray oracle rec0).1 = false →
      (intersect ray oracle rec0).2.1 = ray ∧
      (intersect ray oracle rec0).2.2 = rec0) := by
  cases oracle with
  | none => simp [intersect]
  | some h =>
    by_cases hlt : h.tfar < ray.farT
    · simp [intersect, hlt]
    · simp [intersect, hlt]

/-- Witness for C3: the fixture ray against the fixture oracle hit at
distance 2 shrinks the far bound to 2 and fills the record. -/
theorem intersect_spec_witness :
    (intersect rayFixture (some hitFixture) recFixture).2.1 =
      { rayFixture with farT := hitFixture.tfar } ∧
    (intersect rayFixture (some hitFixture) recFixture).2.2 =
      { Ng := hitFixture.Ng
        p := rayFixture.org + hitFixture.tfar • rayFixture.dir
        u := hitFixture.u
        v := hitFixture.v
        id0 := hitFixture.id0
        id1 := hitFixture.id1
        backSide := Vec3.dot hitFixture.Ng rayFixture.dir > 0 } :=
  (intersect_spec rayFixture (some hitFixture) recFixture).2.1 hitFixture rfl
    (by norm_num [hitFixture, rayFixture])

/-- C9: a reported hit distance stays inside the ray's requested interval
(granting the oracle contract that it only reports hits at or beyond the
near bound), and across any sequence of `intersect` calls on the same ray
the far bound is monotonically non-increasing — each call leaves it
unchanged or shrinks it to a closer hit distance. -/
theorem intersect_interval_monotone (ray : Ray) (rec : MeshIntersection)
    (os : List (Option OracleHit)) :
    (∀ h : OracleHit, ray.nearT ≤ h.tfar →
      ((intersect ray (some h) rec).1 = true →
        ray.nearT ≤ h.tfar ∧ h.tfar < ray.farT ∧
        (intersect ray (some h) rec).2.1.farT = h.tfar) ∧
      ((intersect ray (some h) rec).2.1.farT = ray.farT ∨
        ((intersect ray (some h) rec).2.1.farT = h.tfar ∧
          h.tfar < ray.farT))) ∧
    (runIntersections ray rec os).1.farT ≤ ray.farT := by
  constructor
  · intro h hnear
    by_cases hlt : h.tfar < ray.farT
    · exact ⟨fun _ => ⟨hnear, hlt, by simp [intersect, hlt]⟩,
        Or.inr ⟨by simp [intersect, hlt], hlt⟩⟩
    · exact ⟨fun htrue => absurd htrue (by simp [intersect, hlt]),
        Or.inl (by simp [intersect, hlt])⟩
  · exact runIntersections_farT_le os ray rec

/-- Witness for C9 at the fixtures: the hit at distance 2 lies in `[0, 10]`
and the far bound shrinks to 2. -/
theorem intersect_interval_monotone_witness :
    ((intersect rayFixture (some hitFixture) recFixture).1 = true →
      rayFixture.nearT ≤ hitFixture.tfar ∧
      hitFixture.tfar < rayFixture.farT ∧
      (intersect rayFixture (some hitFixture) recFixture).2.1.farT =
        hitFixture.tfar) ∧
    ((intersect rayFixture (some hitFixture) recFixture).2.1.farT =
        rayFixture.farT ∨
      ((intersect rayFixture (some hitFixture) recFixture).2.1.farT =
          hitFixture.tfar ∧
        hitFixture.tfar < rayFixture.farT)) :=
  (intersect_interval_monotone rayFixture recFixture [some hitFixture]).1
    hitFixture (by norm_num [hitFixture, rayFixture])

theorem sampleInbound_eq_ite (m : Mesh) (idx : ℕ) (q refp : Vec3) :
    sampleInboundDirection m idx q refp =
      if cosThetaAt m idx q refp ≤ 0 then none
      else some
        ⟨(Real.sqrt (Vec3.lengthSq (q - refp)))⁻¹ • (q - refp),
          Real.sqrt (Vec3.lengthSq (q - refp)),
          Vec3.lengthSq (q - refp) /
            (cosThetaAt m idx q refp * m.totalArea)⟩ := rfl

theorem sampleInbound_some_elim (m : Mesh) (idx : ℕ) (q refp : Vec3)
    {s : LightSampleOut} (h : sampleInboundDirection m idx q refp = some s) :
    0 < cosThetaAt m idx q refp ∧
    s.d = (Real.sqrt (Vec3.lengthSq (q - refp)))⁻¹ • (q - refp) ∧
    s.pdf = Vec3.lengthSq (q - refp) /
      (cosThetaAt m idx q refp * m.totalArea) := by
  rw [sampleInbound_eq_ite] at h
  by_cases hc : cosThetaAt m idx q refp ≤ 0
  · simp [hc] at h
  · rw [if_neg hc] at h
    injection h with h
    subst h
    exact ⟨lt_of_not_le hc, rfl, rfl⟩

/-- C1: `sampleInboundDirection` fails exactly when the cosine
`cosTheta = -(triangleNormal · sampledDirection)` at the sampled triangle is
`≤ 0`; on success the sample's pdf is `squaredDistance / (cosTheta ·
totalArea)`, with `squaredDistance` the squared distance from the reference
point to the sampled point and `totalArea` the cached total surface area. -/
theorem sampleInbound_fail_iff_and_pdf (m : Mesh) (idx : ℕ) (q refp : Vec3) :
    (sampleInboundDirection m idx q refp = none ↔
      cosThetaAt m idx q refp ≤ 0) ∧
    (∀ s, sampleInboundDirection m idx q refp = some s →
      s.pdf = Vec3.lengthSq (q - refp) /
        (cosThetaAt m idx q refp * m.totalArea)) := by
  constructor
  · rw [sampleInbound_eq_ite]
    by_cases hc : cosThetaAt m idx q refp ≤ 0
    · simp [hc]
    · simp [hc]
  · intro s hs
    exact (sampleInbound_some_elim m idx q refp hs).2.2

/-- Witness for C1: from the fixture triangle sampled at the origin, seen
from the reference point `(0,0,1)`, the successful sample's pdf equals the
claimed quotient. -/
theorem sampleInbound_fail_iff_and_pdf_witness :
    LightSampleOut.pdf ⟨⟨0, 0, -1⟩, 1, 2⟩ =
      Vec3.lengthSq ((⟨0, 0, 0⟩ : Vec3) - ⟨0, 0, 1⟩) /
        (cosThetaAt oneTriMesh 0 ⟨0, 0, 0⟩ ⟨0, 0, 1⟩ *
          oneTriMesh.totalArea) := by
  apply (sampleInbound_fail_iff_and_pdf oneTriMesh 0 ⟨0, 0, 0⟩ ⟨0, 0, 1⟩).2
  rw [sampleInbound_eq_ite]
  norm_num [cosThetaAt, triNormal, oneTriMesh, triVertsFixture, getTri,
    getVert, List.getD, Vec3.cross, Vec3.normalized, Vec3.length,
    Vec3.lengthSq, Vec3.dot, Real.sqrt_one]
  ext <;> norm_num

/-- C2: `inboundPdf` on a realized hit agrees with the pdf that
`sampleInboundDirection` computes for the same triangle, sampled point,
reference point and direction, provided the oracle-reported normal stored
in the record is a positive multiple of the winding cross-product normal
(the convention modelled from the spec for the external oracle). -/
theorem inboundPdf_roundTrip (m : Mesh) (idx : ℕ) (q refp : Vec3)
    (isect : MeshIntersection) (c : ℝ) (hc : 0 < c)
    (hp : isect.p = q)
    (hn : isect.Ng = c • Vec3.cross
      ((triVert1 m idx).pos - (triVert0 m idx).pos)
      ((triVert2 m idx).pos - (triVert0 m idx).pos)) :
    ∀ s, sampleInboundDirection m idx q refp = some s →
      inboundPdf m isect refp s.d = s.pdf := by
  intro s hs
  obtain ⟨_, hd, hpdf⟩ := sampleInbound_some_elim m idx q refp hs
  unfold inboundPdf
  rw [hp, hn, Vec3.normalized_smul_of_pos hc, hd, hpdf,
    Vec3.lengthSq_sub_comm]
  congr 1
  rw [Vec3.dot_comm]
  rfl

/-- Witness for C2: at the fixtures (oracle normal `(0,0,2)`, twice the
cross product), the realized-hit pdf equals the sampled pdf `2`. -/
theorem inboundPdf_roundTrip_witness :
    inboundPdf oneTriMesh isectFixture ⟨0, 0, 1⟩ ⟨0, 0, -1⟩ = 2 :=
  inboundPdf_roundTrip oneTriMesh 0 ⟨0, 0, 0⟩ ⟨0, 0, 1⟩ isectFixture 2
    (by norm_num) rfl
    (by
      ext <;>
        norm_num [isectFixture, triVert0, triVert1, triVert2, oneTriMesh,
          triVertsFixture, getVert, getTri, List.getD, Vec3.cross])
    ⟨⟨0, 0, -1⟩, 1, 2⟩
    (by
      rw [sampleInbound_eq_ite]
      norm_num [cosThetaAt, triNormal, oneTriMesh, triVertsFixture, getTri,
        getVert, List.getD, Vec3.cross, Vec3.normalized, Vec3.length,
        Vec3.lengthSq, Vec3.dot, Real.sqrt_one]
      ext <;> norm_num)

/-- C5 (amended): `sampleInboundDirection` rejects (returns no sample)
whenever its cosine is non-positive — which covers a zero total area, since
then the selected triangle is degenerate and its normalized normal is the
zero vector — but `inboundPdf` performs no such check: it returns the raw
quotient, which is negative whenever the denominator is negative. -/
theorem sampleInbound_rejects_inboundPdf_unchecked (m : Mesh) (idx : ℕ)
    (q refp : Vec3) (isect : MeshIntersection) (p d : Vec3) :
    (cosThetaAt m idx q refp ≤ 0 →
      sampleInboundDirection m idx q refp = none) ∧
    (0 < Vec3.lengthSq (p - isect.p) →
      -(Vec3.dot d (Vec3.normalized isect.Ng)) * m.totalArea < 0 →
      inboundPdf m isect p d < 0) := by
  constructor
  · intro h
    rw [sampleInbound_eq_ite, if_pos h]
  · intro hnum hden
    unfold inboundPdf
    exact div_neg_of_pos_of_neg hnum hden

/-- Counterexample to C5 as stated: `inboundPdf` queried with a direction
facing the same way as the stored normal returns the negative pdf `-2` —
there is no rejection branch in its body. -/
theorem inboundPdf_negative_counterexample :
    inboundPdf oneTriMesh backIsectFixture ⟨0, 0, 1⟩ ⟨0, 0, 1⟩ = -2 := by
  norm_num [inboundPdf, oneTriMesh, backIsectFixture, Vec3.normalized,
    Vec3.length, Vec3.lengthSq, Vec3.dot, Real.sqrt_one]

/-- Witness for C5: the fixture triangle seen from the back yields a
rejected sample, and a concrete back-facing `inboundPdf` query comes back
negative. -/
theorem sampleInbound_rejects_inboundPdf_unchecked_witness :
    sampleInboundDirection oneTriMesh 0 ⟨0, 0, 0⟩ ⟨0, 0, -1⟩ = none ∧
    inboundPdf oneTriMesh backIsectFixture ⟨0, 0, 1⟩ ⟨0, 0, 1⟩ < 0 :=
  ⟨(sampleInbound_rejects_inboundPdf_unchecked oneTriMesh 0 ⟨0, 0, 0⟩
      ⟨0, 0, -1⟩ backIsectFixture ⟨0, 0, 1⟩ ⟨0, 0, 1⟩).1
    (by
      norm_num [cosThetaAt, triNormal, oneTriMesh, triVertsFixture, getTri,
        getVert, List.getD, Vec3.cross, Vec3.normalized, Vec3.length,
        Vec3.lengthSq, Vec3.dot, Real.sqrt_one]),
   (sampleInbound_rejects_inboundPdf_unchecked oneTriMesh 0 ⟨0, 0, 0⟩
      ⟨0, 0, -1⟩ backIsectFixture ⟨0, 0, 1⟩ ⟨0, 0, 1⟩).2
    (by norm_num [backIsectFixture, Vec3.lengthSq, Vec3.dot])
    (by
      norm_num [backIsectFixture, oneTriMesh, Vec3.normalized, Vec3.length,
        Vec3.lengthSq, Vec3.dot, Real.sqrt_one])⟩

/-- C4: shading-info reconstruction sets the geometric normal to the
oracle-reported normal sign-flipped and renormalized, the shading normal to
the renormalized barycentric interpolation of the vertex normals when
smoothing is on and to the geometric normal otherwise, and the texture
coordinate to the barycentric interpolation of the vertex UVs — all with
weights `(1-u-v, u, v)`, so that at `(u,v) = (0,0), (1,0), (0,1)` the
interpolants reproduce vertex 0, 1, 2 attributes (the normal up to the
renormalization, exactly when the vertex normal is unit). -/
theorem intersectionInfo_spec (m : Mesh) (isect : MeshIntersection)
    (tri : ℕ) :
    ((intersectionInfo m isect).Ng = -Vec3.normalized isect.Ng) ∧
    ((intersectionInfo m isect).Ns =
      if m.smoothed then normalAt m isect.id0 isect.u isect.v
      else -Vec3.normalized isect.Ng) ∧
    ((intersectionInfo m isect).uv = uvAt m isect.id0 isect.u isect.v) ∧
    (uvAt m tri 0 0 = (triVert0 m tri).uv ∧
      uvAt m tri 1 0 = (triVert1 m tri).uv ∧
      uvAt m tri 0 1 = (triVert2 m tri).uv) ∧
    (normalAt m tri 0 0 = Vec3.normalized (triVert0 m tri).normal ∧
      normalAt m tri 1 0 = Vec3.normalized (triVert1 m tri).normal ∧
      normalAt m tri 0 1 = Vec3.normalized (triVert2 m tri).normal) ∧
    (Vec3.length (triVert0 m tri).normal = 1 →
      normalAt m tri 0 0 = (triVert0 m tri).normal) := by
  have huv0 : uvAt m tri 0 0 = (triVert0 m tri).uv := by
    unfold uvAt triVert0
    ext <;> norm_num
  have huv1 : uvAt m tri 1 0 = (triVert1 m tri).uv := by
    unfold uvAt triVert1
    ext <;> norm_num
  have huv2 : uvAt m tri 0 1 = (triVert2 m tri).uv := by
    unfold uvAt triVert2
    ext <;> norm_num
  have hn0 : normalAt m tri 0 0 = Vec3.normalized (triVert0 m tri).normal := by
    simp only [normalAt, triVert0]
    rw [Vec3.bary_corner0]
  have hn1 : normalAt m tri 1 0 = Vec3.normalized (triVert1 m tri).normal := by
    simp only [normalAt, triVert1]
    rw [Vec3.bary_corner1]
  have hn2 : normalAt m tri 0 1 = Vec3.normalized (triVert2 m tri).normal := by
    simp only [normalAt, triVert2]
    rw [Vec3.bary_corner2]
  refine ⟨rfl, rfl, rfl, ⟨huv0, huv1, huv2⟩, ⟨hn0, hn1, hn2⟩, ?_⟩
  intro hlen
  rw [hn0, Vec3.normalized_of_length_one hlen]

/-- Witness for C4: the fixture's vertex-0 normal is unit, and the shading
normal interpolated at `(u,v) = (0,0)` reproduces it exactly. -/
theorem intersectionInfo_spec_witness :
    Vec3.length (triVert0 oneTriMesh 0).normal = 1 ∧
    normalAt oneTriMesh 0 0 0 = (triVert0 oneTriMesh 0).normal := by
  have hl : Vec3.length (triVert0 oneTriMesh 0).normal = 1 := by
    norm_num [triVert0, oneTriMesh, triVertsFixture, getVert, getTri,
      List.getD, Vec3.length, Vec3.lengthSq, Vec3.dot, Real.sqrt_one]
  exact ⟨hl, (intersectionInfo_spec oneTriMesh isectFixture 0).2.2.2.2.2 hl⟩

theorem tangentSpace_eq_ite (m : Mesh) (isect : MeshIntersection) :
    tangentSpace m isect =
      if |uvDeltaDet m isect.id0| < 1 / 10000 then none
      else some
        ((1 / uvDeltaDet m isect.id0) •
            ((uvD2 m isect.id0).y • edgeQ1 m isect.id0 -
              (uvD1 m isect.id0).y • edgeQ2 m isect.id0),
          (1 / uvDeltaDet m isect.id0) •
            ((uvD1 m isect.id0).x • edgeQ2 m isect.id0 -
              (uvD2 m isect.id0).x • edgeQ1 m isect.id0)) := rfl

/-- C7: `tangentSpace` fails exactly when the magnitude of the UV-delta
determinant `s1*t2 - s2*t1` of the hit triangle is below `1e-4`; otherwise
the returned tangent and bitangent solve the 2×2 linear system formed by
the triangle's edge vectors and UV deltas. -/
theorem tangentSpace_fail_iff_and_solves (m : Mesh)
    (isect : MeshIntersection) :
    (tangentSpace m isect = none ↔
      |uvDeltaDet m isect.id0| < 1 / 10000) ∧
    (∀ T B, tangentSpace m isect = some (T, B) →
      (uvD1 m isect.id0).x • T + (uvD1 m isect.id0).y • B =
        edgeQ1 m isect.id0 ∧
      (uvD2 m isect.id0).x • T + (uvD2 m isect.id0).y • B =
        edgeQ2 m isect.id0) := by
  rw [tangentSpace_eq_ite]
  by_cases hd : |uvDeltaDet m isect.id0| < 1 / 10000
  · refine ⟨by simp [hd], ?_⟩
    intro T B hTB
    rw [if_pos hd] at hTB
    exact Option.noConfusion hTB
  · have hΔ : uvDeltaDet m isect.id0 ≠ 0 := by
      intro h0
      exact hd (by rw [h0]; norm_num)
    rw [if_neg hd]
    refine ⟨⟨fun h => Option.noConfusion h, fun h => absurd h hd⟩, ?_⟩
    rintro T B hTB
    rw [Option.some.injEq, Prod.mk.injEq] at hTB
    obtain ⟨hT, hB⟩ := hTB
    subst hT
    subst hB
    unfold uvDeltaDet at hΔ ⊢
    constructor <;> ext <;> field_simp <;> ring

/-- Witness for C7: at the fixture triangle (identity UV chart, determinant
1) the returned frame `T = (1,0,0)`, `B = (0,1,0)` solves both equations of
the system. -/
theorem tangentSpace_fail_iff_and_solves_witness :
    ((uvD1 oneTriMesh 0).x • (⟨1, 0, 0⟩ : Vec3) +
        (uvD1 oneTriMesh 0).y • (⟨0, 1, 0⟩ : Vec3) = edgeQ1 oneTriMesh 0 ∧
      (uvD2 oneTriMesh 0).x • (⟨1, 0, 0⟩ : Vec3) +
        (uvD2 oneTriMesh 0).y • (⟨0, 1, 0⟩ : Vec3) = edgeQ2 oneTriMesh 0) :=
  (tangentSpace_fail_iff_and_solves oneTriMesh isectFixture).2
    ⟨1, 0, 0⟩ ⟨0, 1, 0⟩
    (by
      rw [tangentSpace_eq_ite,
        if_neg (by
          norm_num [uvDeltaDet, uvD1, uvD2, triVert0, triVert1, triVert2,
            oneTriMesh, triVertsFixture, getVert, getTri, List.getD,
            isectFixture])]
      simp only [Option.some.injEq, Prod.mk.injEq]
      constructor <;> ext <;>
        norm_num [uvDeltaDet, uvD1, uvD2, edgeQ1, edgeQ2, triVert0,
          triVert1, triVert2, oneTriMesh, triVertsFixture, getVert, getTri,
          List.getD, isectFixture])

end Tungsten
